import Mathlib

/-!
Verification development for the field_execd daemon
(src/rust/field_execd/src/main.rs): a shallow embedding of its
request-handling engine — JSON params decoding, the SSH connection pool,
the one-shot exec retry policy, the streaming line framing, and the
per-connection request dispatch — together with theorems settling the
spec claims about it.
-/

namespace FieldExecd

/-- JSON values, modelling serde_json::Value as far as the protocol uses it
(numbers are integers: every numeric field in the protocol is an integer). -/
inductive Json where
  | null : Json
  | jbool (b : Bool) : Json
  | jnum (n : Int) : Json
  | jstr (s : String) : Json
  | jarr (elems : List Json) : Json
  | jobj (fields : List (String × Json)) : Json
deriving Repr

/-- Field lookup in a JSON object (serde_json map access); none on non-objects. -/
def Json.getField : Json → String → Option Json
  | .jobj fields, k => (fields.find? (fun p => p.1 = k)).map (fun p => p.2)
  | _, _ => none

/-- Decode a JSON value as a string (serde String field). -/
def Json.asString : Json → Option String
  | .jstr s => some s
  | _ => none

/-- Decode a JSON value as an unsigned integer strictly below the bound
(serde u64/u32/u16 fields: a nonnegative integer in range). -/
def Json.asUInt (bound : Nat) : Json → Option Nat
  | .jnum n => if 0 ≤ n ∧ n < (bound : Int) then some n.toNat else none
  | _ => none

/-- Decode an optional string field of a JSON object: missing or null gives
none (serde Option of String), a string gives it, anything else fails. -/
def Json.optStringField (j : Json) (k : String) : Option (Option String) :=
  match j.getField k with
  | Option.none => some Option.none
  | some .null => some Option.none
  | some (.jstr s) => some (some s)
  | some _ => none

end FieldExecd

namespace FieldExecd

/-- hello params: token and protocol (struct HelloParams). -/
structure HelloParams where
  token : String
  protocol : Nat
deriving Repr, DecidableEq

/-- Decode HelloParams from a JSON params value (serde derive: an object
with a string token and a u32 protocol). -/
def decodeHelloParams (j : Json) : Option HelloParams :=
  match j with
  | .jobj _ =>
    match (j.getField "token").bind Json.asString,
          (j.getField "protocol").bind (Json.asUInt (2 ^ 32)) with
    | some t, some p => some ⟨t, p⟩
    | _, _ => none
  | _ => none

/-- SSH auth material (enum SshAuth, serde tag "kind"). -/
inductive SshAuth where
  | key (private_key_pem : String) (private_key_passphrase : Option String) : SshAuth
  | password (password : String) : SshAuth
deriving Repr, DecidableEq

/-- Decode SshAuth from JSON (internally tagged on the "kind" field). -/
def decodeSshAuth (j : Json) : Option SshAuth :=
  match j with
  | .jobj _ =>
    match (j.getField "kind").bind Json.asString with
    | some "key" =>
      match (j.getField "private_key_pem").bind Json.asString,
            j.optStringField "private_key_passphrase" with
      | some pem, some pass => some (.key pem pass)
      | _, _ => none
    | some "password" =>
      match (j.getField "password").bind Json.asString with
      | some pw => some (.password pw)
      | _ => none
    | _ => none
  | _ => none

/-- SSH target (struct SshTarget). -/
structure SshTarget where
  host : String
  port : Nat
  username : String
  auth : SshAuth
deriving Repr, DecidableEq

/-- Decode SshTarget from JSON (object with host, port u16, username, auth). -/
def decodeSshTarget (j : Json) : Option SshTarget :=
  match j with
  | .jobj _ =>
    match (j.getField "host").bind Json.asString,
          (j.getField "port").bind (Json.asUInt (2 ^ 16)),
          (j.getField "username").bind Json.asString,
          (j.getField "auth").bind decodeSshAuth with
    | some h, some p, some u, some a => some ⟨h, p, u, a⟩
    | _, _, _, _ => none
  | _ => none

/-- ssh.exec params (struct SshExecParams). -/
structure SshExecParams where
  target : SshTarget
  command : String
  connect_timeout_ms : Nat
  command_timeout_ms : Nat
deriving Repr, DecidableEq

/-- Decode SshExecParams from JSON. -/
def decodeSshExecParams (j : Json) : Option SshExecParams :=
  match j with
  | .jobj _ =>
    match (j.getField "target").bind decodeSshTarget,
          (j.getField "command").bind Json.asString,
          (j.getField "connect_timeout_ms").bind (Json.asUInt (2 ^ 64)),
          (j.getField "command_timeout_ms").bind (Json.asUInt (2 ^ 64)) with
    | some t, some c, some ct, some cmt => some ⟨t, c, ct, cmt⟩
    | _, _, _, _ => none
  | _ => none

/-- ssh.start params (struct SshStartParams). -/
structure SshStartParams where
  target : SshTarget
  command : String
  connect_timeout_ms : Nat
deriving Repr, DecidableEq

/-- Decode SshStartParams from JSON. -/
def decodeSshStartParams (j : Json) : Option SshStartParams :=
  match j with
  | .jobj _ =>
    match (j.getField "target").bind decodeSshTarget,
          (j.getField "command").bind Json.asString,
          (j.getField "connect_timeout_ms").bind (Json.asUInt (2 ^ 64)) with
    | some t, some c, some ct => some ⟨t, c, ct⟩
    | _, _, _ => none
  | _ => none

/-- ssh.cancel params (struct SshCancelParams). -/
structure SshCancelParams where
  stream_id : Nat
deriving Repr, DecidableEq

/-- Decode SshCancelParams from JSON. -/
def decodeSshCancelParams (j : Json) : Option SshCancelParams :=
  match j with
  | .jobj _ =>
    match (j.getField "stream_id").bind (Json.asUInt (2 ^ 64)) with
    | some sid => some ⟨sid⟩
    | _ => none
  | _ => none

/-- ssh.reset_all params (struct SshResetAllParams): an optional reason. -/
structure SshResetAllParams where
  reason : Option String
deriving Repr, DecidableEq

/-- Decode SshResetAllParams from JSON (an object whose optional reason
field is a string; any non-object value fails to decode). -/
def decodeSshResetAllParams (j : Json) : Option SshResetAllParams :=
  match j with
  | .jobj _ =>
    match j.optStringField "reason" with
    | some r => some ⟨r⟩
    | _ => none
  | _ => none

/-- ssh.write_file params (struct SshWriteFileParams). -/
structure SshWriteFileParams where
  target : SshTarget
  remote_path : String
  contents : String
  connect_timeout_ms : Nat
  command_timeout_ms : Nat
deriving Repr, DecidableEq

/-- Decode SshWriteFileParams from JSON. -/
def decodeSshWriteFileParams (j : Json) : Option SshWriteFileParams :=
  match j with
  | .jobj _ =>
    match (j.getField "target").bind decodeSshTarget,
          (j.getField "remote_path").bind Json.asString,
          (j.getField "contents").bind Json.asString,
          (j.getField "connect_timeout_ms").bind (Json.asUInt (2 ^ 64)),
          (j.getField "command_timeout_ms").bind (Json.asUInt (2 ^ 64)) with
    | some t, some rp, some c, some ct, some cmt => some ⟨t, rp, c, ct, cmt⟩
    | _, _, _, _, _ => none
  | _ => none

/-- ssh.generate_key params (struct SshGenerateKeyParams). -/
structure SshGenerateKeyParams where
  comment : String
deriving Repr, DecidableEq

/-- Decode SshGenerateKeyParams from JSON. -/
def decodeSshGenerateKeyParams (j : Json) : Option SshGenerateKeyParams :=
  match j with
  | .jobj _ =>
    match (j.getField "comment").bind Json.asString with
    | some c => some ⟨c⟩
    | _ => none
  | _ => none

/-- ssh.authorized_key_line params (struct SshAuthorizedKeyLineParams). -/
structure SshAuthorizedKeyLineParams where
  private_key_pem : String
  private_key_passphrase : Option String
  comment : String
deriving Repr, DecidableEq

/-- Decode SshAuthorizedKeyLineParams from JSON. -/
def decodeSshAuthorizedKeyLineParams (j : Json) :
    Option SshAuthorizedKeyLineParams :=
  match j with
  | .jobj _ =>
    match (j.getField "private_key_pem").bind Json.asString,
          j.optStringField "private_key_passphrase",
          (j.getField "comment").bind Json.asString with
    | some pem, some pass, some c => some ⟨pem, pass, c⟩
    | _, _, _ => none
  | _ => none

/-- ssh.install_public_key params (struct SshInstallPublicKeyParams). -/
structure SshInstallPublicKeyParams where
  user_at_host : String
  port : Nat
  password : String
  private_key_pem : String
  private_key_passphrase : Option String
  comment : String
deriving Repr, DecidableEq

/-- Decode SshInstallPublicKeyParams from JSON. -/
def decodeSshInstallPublicKeyParams (j : Json) :
    Option SshInstallPublicKeyParams :=
  match j with
  | .jobj _ =>
    match (j.getField "user_at_host").bind Json.asString,
          (j.getField "port").bind (Json.asUInt (2 ^ 16)),
          (j.getField "password").bind Json.asString,
          (j.getField "private_key_pem").bind Json.asString,
          j.optStringField "private_key_passphrase",
          (j.getField "comment").bind Json.asString with
    | some u, some p, some pw, some pem, some pass, some c =>
      some ⟨u, p, pw, pem, pass, c⟩
    | _, _, _, _, _, _ => none
  | _ => none

/-! ## Line framing of the streaming executor

The stream task appends each decoded chunk to a pending character buffer
and, while the buffer contains a newline, slices off the part before the
newline, removes the trailing carriage returns with trim_end_matches of
the CR character, and emits the result as a line event. -/

/-- Removal of trailing carriage returns from a completed line
(String::trim_end_matches with a CR pattern removes every trailing match,
not only the last one). -/
def trimEndCr (l : List Char) : List Char :=
  (l.reverse.dropWhile (fun c => c = '\r')).reverse

/-- Locate the first newline of the buffer, returning the characters before
it and the characters after it; none when the buffer has no newline. This
models the find of the newline index together with the slice up to it and
the drain past it. -/
def breakAtNl : List Char → Option (List Char × List Char)
  | [] => none
  | c :: rest =>
    if c = '\n' then some ([], rest)
    else (breakAtNl rest).map (fun p => (c :: p.1, p.2))

/-- The line-extraction loop of the stream task: while the pending buffer
contains a newline, slice off everything before it, strip its trailing
carriage returns and emit it as a line; what follows the last newline stays
pending. Returns the emitted lines in order and the remaining buffer. -/
def extractLines (buf : List Char) : List (List Char) × List Char :=
  match h : breakAtNl buf with
  | none => ([], buf)
  | some (before, after) =>
    let r := extractLines after
    (trimEndCr before :: r.1, r.2)
termination_by buf.length
decreasing_by
  have H : ∀ (l b a : List Char),
      breakAtNl l = some (b, a) → a.length < l.length := by
    intro l
    induction l with
    | nil => intro b a hh; simp [breakAtNl] at hh
    | cons c rest ih =>
      intro b a hh
      simp only [breakAtNl] at hh
      split at hh
      · cases hh
        simp
      · cases hr : breakAtNl rest with
        | none => rw [hr] at hh; simp at hh
        | some p =>
          obtain ⟨p1, p2⟩ := p
          rw [hr] at hh
          simp only [Option.map_some'] at hh
          have h2 := Option.some.inj hh
          have ha : p2 = a := congrArg Prod.snd h2
          subst ha
          exact Nat.lt_succ_of_lt (ih _ _ hr)
  exact H buf before after h

/-- Stated from the amended claim: split the buffer at every newline into
segments; the segments before the newlines are the completed lines, the
part after the last newline is the unterminated remainder. -/
def splitSegments : List Char → List (List Char)
  | [] => [[]]
  | c :: rest =>
    if c = '\n' then [] :: splitSegments rest
    else
      match splitSegments rest with
      | [] => [[c]]
      | g :: gs => (c :: g) :: gs

/-! ## Transport errors and the session pool -/

/-- Kinds of I/O errors distinguished by the reconnect classification. -/
inductive IoKind where
  | brokenPipe
  | connectionReset
  | connectionAborted
  | notConnected
  | unexpectedEof
  | timedOut
  | otherKind (name : String)
deriving Repr, DecidableEq

/-- Transport errors as far as the daemon inspects them; every variant
carries the display message the daemon surfaces verbatim. -/
inductive SshError where
  | sshError (msg : String)
  | sendError (msg : String)
  | channelSendError (msg : String)
  | ioError (k : IoKind) (msg : String)
  | otherError (msg : String)
deriving Repr, DecidableEq

/-- The display rendering of a transport error (the to_string the daemon
puts into responses and stream_exit events). -/
def SshError.toMessage : SshError → String
  | .sshError m => m
  | .sendError m => m
  | .channelSendError m => m
  | .ioError _ m => m
  | .otherError m => m

/-- SshConnectionPool::should_reconnect: an error is transient-reconnect
iff it is an SSH protocol failure, a send or channel-send failure, or an
I/O error of one of six kinds; everything else is permanent. -/
def should_reconnect : SshError → Bool
  | .sshError _ => true
  | .sendError _ => true
  | .channelSendError _ => true
  | .ioError k _ =>
    match k with
    | .brokenPipe => true
    | .connectionReset => true
    | .connectionAborted => true
    | .notConnected => true
    | .unexpectedEof => true
    | .timedOut => true
    | .otherKind _ => false
  | .otherError _ => false

/-- Auth kinds cached in the pool (enum PoolAuthKind). -/
inductive PoolAuthKind where
  | key
  | password
deriving Repr, DecidableEq

/-- Identity under which a session is cached (struct PoolKey). -/
structure PoolKey where
  host : String
  port : Nat
  username : String
  auth_kind : PoolAuthKind
  secret_hash : Nat
deriving Repr, DecidableEq

/-- An SSH client handle; live sessions are abstracted to identifiers. -/
abbrev Client := Nat

/-- The pool map from PoolKey to live client (the HashMap, as an
association list whose keys are unique). -/
structure PoolState where
  entries : List (PoolKey × Client)
deriving Repr, DecidableEq

/-- Pool lookup (SshConnectionPool::get). -/
def poolGet (p : PoolState) (k : PoolKey) : Option Client :=
  (p.entries.find? (fun e => e.1 == k)).map (fun e => e.2)

/-- Pool insertion (SshConnectionPool::insert): replace the entry for the
key when present, otherwise add one. -/
def poolInsert (p : PoolState) (k : PoolKey) (c : Client) : PoolState :=
  if p.entries.any (fun e => e.1 == k) then
    ⟨p.entries.map (fun e => if e.1 == k then (k, c) else e)⟩
  else ⟨p.entries ++ [(k, c)]⟩

/-- Pool eviction (SshConnectionPool::remove). -/
def poolRemove (p : PoolState) (k : PoolKey) : PoolState :=
  ⟨p.entries.filter (fun e => !(e.1 == k))⟩

/-- SshConnectionPool::clear_all: report the number of cached sessions and
empty the map. -/
def clear_all (p : PoolState) : Nat × PoolState :=
  (p.entries.length, ⟨[]⟩)

/-- Removal of leading and trailing whitespace (str::trim), written over
the character list. -/
def strTrim (s : String) : String :=
  ⟨((s.data.dropWhile Char.isWhitespace).reverse.dropWhile
      Char.isWhitespace).reverse⟩

/-- Deterministic 64-bit digest standing in for the std DefaultHasher the
pool uses; the pool only relies on the digest being a deterministic
function of its input within one daemon lifetime. -/
def strDigest (s : String) : Nat :=
  s.data.foldl (fun h c => (h * 31 + c.toNat) % (2 ^ 64)) 5381

/-- SshConnectionPool::hash_secret: digest of the trimmed secret. -/
def hash_secret (secret : String) : Nat :=
  strDigest (strTrim secret)

/-! ## The environment: connect and command outcomes -/

/-- Outcome of one remote command attempt: it completed with collected
output and a u32 exit status, it failed with a transport error, or the
command timeout elapsed. -/
inductive ExecAttempt where
  | completed (stdout stderr : String) (exit_status : Nat)
  | failed (e : SshError)
  | elapsed
deriving Repr, DecidableEq

/-- Oracles for everything behind the SSH transport: the result of the
n-th connect attempt, the outcome of the n-th remote command attempt, and
the outcome of the n-th non-core operation (write_file, key handling). -/
structure SshWorld where
  connectResult : Nat → Except SshError Client
  execResult : Nat → ExecAttempt
  opResult : Nat → Except String Json

/-- Cursor into the oracles: how many connects, command attempts and
non-core operations have happened so far. -/
structure WorldCursor where
  connectIdx : Nat
  execIdx : Nat
  opIdx : Nat
deriving Repr, DecidableEq

/-- SshConnectionPool::get_or_connect_key: the PoolKey is built from host,
port, username, the KEY auth kind and the digest of the private key PEM —
the passphrase is not part of the key. A cached client is returned as is;
otherwise one connect outcome is consumed (the only point at which the
passphrase would be used) and the fresh client cached. The final Bool
records whether a connect was attempted. -/
def get_or_connect_key (pool : PoolState) (w : SshWorld) (cur : WorldCursor)
    (host : String) (port : Nat) (username : String)
    (private_key_pem : String) (passphrase : Option String) :
    Except SshError (PoolKey × Client) × PoolState × WorldCursor × Bool :=
  let _ := passphrase
  let key : PoolKey := ⟨host, port, username, .key, hash_secret private_key_pem⟩
  match poolGet pool key with
  | some c => (.ok (key, c), pool, cur, false)
  | none =>
    match w.connectResult cur.connectIdx with
    | .ok c =>
      (.ok (key, c), poolInsert pool key c,
        { cur with connectIdx := cur.connectIdx + 1 }, true)
    | .error e =>
      (.error e, pool, { cur with connectIdx := cur.connectIdx + 1 }, true)

/-- SshConnectionPool::get_or_connect_password, analogous to the key
variant with the PASSWORD auth kind and the digest of the password. -/
def get_or_connect_password (pool : PoolState) (w : SshWorld)
    (cur : WorldCursor) (host : String) (port : Nat) (username : String)
    (password : String) :
    Except SshError (PoolKey × Client) × PoolState × WorldCursor × Bool :=
  let key : PoolKey := ⟨host, port, username, .password, hash_secret password⟩
  match poolGet pool key with
  | some c => (.ok (key, c), pool, cur, false)
  | none =>
    match w.connectResult cur.connectIdx with
    | .ok c =>
      (.ok (key, c), poolInsert pool key c,
        { cur with connectIdx := cur.connectIdx + 1 }, true)
    | .error e =>
      (.error e, pool, { cur with connectIdx := cur.connectIdx + 1 }, true)

/-- fn parse_target: reject an empty host, an empty username or port 0. -/
def parse_target (t : SshTarget) :
    Except String (String × Nat × String × SshAuth) :=
  if strTrim t.host = "" then .error "host is empty"
  else if strTrim t.username = "" then .error "username is empty"
  else if t.port = 0 then .error "invalid port"
  else .ok (t.host, t.port, t.username, t.auth)

/-- fn ssh_get_client: validate the target, reject empty secrets, then get
or open a pooled session; transport errors are rendered to strings. -/
def ssh_get_client (pool : PoolState) (w : SshWorld) (cur : WorldCursor)
    (target : SshTarget) :
    Except String (PoolKey × Client) × PoolState × WorldCursor :=
  match parse_target target with
  | .error e => (.error e, pool, cur)
  | .ok (host, port, username, auth) =>
    match auth with
    | .key pem pass =>
      if strTrim pem = "" then (.error "private_key_pem is empty", pool, cur)
      else
        match get_or_connect_key pool w cur host port username pem pass with
        | (.ok kc, pool2, cur2, _) => (.ok kc, pool2, cur2)
        | (.error e, pool2, cur2, _) => (.error e.toMessage, pool2, cur2)
    | .password pw =>
      if strTrim pw = "" then (.error "password is empty", pool, cur)
      else
        match get_or_connect_password pool w cur host port username pw with
        | (.ok kc, pool2, cur2, _) => (.ok kc, pool2, cur2)
        | (.error e, pool2, cur2, _) => (.error e.toMessage, pool2, cur2)

/-- Conversion of a u32 remote exit status to the i32 sent to the client:
statuses that overflow i32 become -1. -/
def exitCodeOfStatus (status : Nat) : Int :=
  if status < 2 ^ 31 then (status : Int) else -1

/-- Result payload of ssh.exec (struct SshExecResult). -/
structure SshExecResult where
  stdout : String
  stderr : String
  exit_code : Int
deriving Repr, DecidableEq

/-- fn ssh_exec: obtain a session, run the command once; when the first
attempt fails with a transient-reconnect error, evict the PoolKey,
reconnect and retry exactly once, surfacing a retry failure verbatim; a
first-attempt timeout or non-transient error is returned without retry. -/
def ssh_exec (pool : PoolState) (w : SshWorld) (cur : WorldCursor)
    (params : SshExecParams) :
    Except String SshExecResult × PoolState × WorldCursor :=
  match ssh_get_client pool w cur params.target with
  | (.error e, pool1, cur1) => (.error e, pool1, cur1)
  | (.ok (pool_key, _client), pool1, cur1) =>
    let first := w.execResult cur1.execIdx
    let cur2 : WorldCursor := { cur1 with execIdx := cur1.execIdx + 1 }
    match first with
    | .completed out err status =>
      (.ok ⟨out, err, exitCodeOfStatus status⟩, pool1, cur2)
    | .elapsed => (.error "SSH command timeout", pool1, cur2)
    | .failed e =>
      if should_reconnect e then
        let pool2 := poolRemove pool1 pool_key
        match ssh_get_client pool2 w cur2 params.target with
        | (.error e2, pool3, cur3) => (.error e2, pool3, cur3)
        | (.ok _, pool3, cur3) =>
          let second := w.execResult cur3.execIdx
          let cur4 : WorldCursor := { cur3 with execIdx := cur3.execIdx + 1 }
          match second with
          | .completed out err status =>
            (.ok ⟨out, err, exitCodeOfStatus status⟩, pool3, cur4)
          | .elapsed => (.error "SSH command timeout", pool3, cur4)
          | .failed e2 => (.error e2.toMessage, pool3, cur4)
      else (.error e.toMessage, pool1, cur2)

/-! ## Frames and the per-connection request handler -/

/-- A frame pushed onto the connection's single outbound queue, which the
writer task serializes onto the wire in push order: a response envelope or
one of the two stream events. -/
inductive Frame where
  | response (id : Nat) (ok : Bool) (result : Option Json) (error : Option String)
  | streamLine (stream_id : Nat) (is_stderr : Bool) (line : String)
  | streamExit (stream_id : Nat) (exit_status : Int) (error : Option String)
deriving Repr

/-- A successful response envelope. -/
def okResponse (id : Nat) (result : Json) : Frame :=
  .response id true (some result) none

/-- A failing response envelope. -/
def errResponse (id : Nat) (error : String) : Frame :=
  .response id false none (some error)

/-- Immutable server configuration: session token and protocol number. -/
structure ServerConfig where
  token : String
  protocol : Nat
deriving Repr, DecidableEq

/-- A parsed request envelope (struct RequestEnvelope); a missing params
field defaults to null. -/
structure RequestEnvelope where
  id : Nat
  method : String
  params : Json
deriving Repr

/-- State a request handler can read and write: the process-wide pool and
stream-id counter together with this connection's stream table (the ids of
its live stream tasks, in insertion order) and the oracle cursor. -/
structure ConnState where
  pool : PoolState
  nextStreamId : Nat
  table : List Nat
  cursor : WorldCursor

/-- fn handle_request, one authenticated request: returns the frames the
handler itself pushes onto the outbound queue in order, the new state, and
whether the handler returned Ok (false mirrors the Err(()) exits: a failed
hello, params that do not decode — which push no response — and the
ssh.start failure path, whose error-response future is constructed but
dropped without being awaited, so nothing reaches the queue). The bodies
of the four non-core operations (write_file, generate_key,
authorized_key_line, install_public_key) are summarized by the operation
oracle: no claim concerns their internals, only that they respond. -/
def handle_request (cfg : ServerConfig) (w : SshWorld) (st : ConnState)
    (req : RequestEnvelope) : List Frame × ConnState × Bool :=
  if req.method = "hello" then
    match decodeHelloParams req.params with
    | none => ([], st, false)
    | some p =>
      if p.protocol ≠ cfg.protocol then
        ([errResponse req.id
            ("protocol mismatch (client=" ++ toString p.protocol ++
              ", server=" ++ toString cfg.protocol ++ ")")], st, false)
      else if p.token ≠ cfg.token then
        ([errResponse req.id "unauthorized"], st, false)
      else
        ([okResponse req.id (.jobj [("protocol", .jnum (cfg.protocol : Int))])],
          st, true)
  else if req.method = "ssh.exec" then
    match decodeSshExecParams req.params with
    | none => ([], st, false)
    | some p =>
      match ssh_exec st.pool w st.cursor p with
      | (.ok res, pool2, cur2) =>
        ([okResponse req.id (.jobj
            [("stdout", .jstr res.stdout), ("stderr", .jstr res.stderr),
              ("exit_code", .jnum res.exit_code)])],
          { st with pool := pool2, cursor := cur2 }, true)
      | (.error e, pool2, cur2) =>
        ([errResponse req.id e], { st with pool := pool2, cursor := cur2 }, true)
  else if req.method = "ssh.start" then
    match decodeSshStartParams req.params with
    | none => ([], st, false)
    | some p =>
      match ssh_get_client st.pool w st.cursor p.target with
      | (.error _e, pool2, cur2) =>
        ([], { st with pool := pool2, cursor := cur2 }, false)
      | (.ok _, pool2, cur2) =>
        let stream_id := st.nextStreamId
        ([okResponse req.id (.jobj [("stream_id", .jnum (stream_id : Int))])],
          { st with pool := pool2, cursor := cur2,
                    nextStreamId := st.nextStreamId + 1,
                    table := st.table ++ [stream_id] }, true)
  else if req.method = "ssh.cancel" then
    match decodeSshCancelParams req.params with
    | none => ([], st, false)
    | some p =>
      if st.table.contains p.stream_id then
        ([Frame.streamExit p.stream_id (-1) (some "cancelled"),
          okResponse req.id (.jobj [("cancelled", .jbool true)])],
          { st with table := st.table.erase p.stream_id }, true)
      else
        ([okResponse req.id (.jobj [("cancelled", .jbool true)])], st, true)
  else if req.method = "ssh.reset_all" then
    let p := (decodeSshResetAllParams req.params).getD ⟨none⟩
    let reason := p.reason.getD "reset"
    let cancelled_streams := st.table.length
    let exits := st.table.map
      (fun sid => Frame.streamExit sid (-1) (some reason))
    let cleared := clear_all st.pool
    (exits ++ [okResponse req.id (.jobj
        [("cleared_connections", .jnum (cleared.1 : Int)),
          ("cancelled_streams", .jnum (cancelled_streams : Int))])],
      { st with table := [], pool := cleared.2 }, true)
  else if req.method = "ssh.write_file" then
    match decodeSshWriteFileParams req.params with
    | none => ([], st, false)
    | some _p =>
      match w.opResult st.cursor.opIdx with
      | .ok _ => ([okResponse req.id (.jobj [])],
          { st with cursor := { st.cursor with opIdx := st.cursor.opIdx + 1 } }, true)
      | .error e => ([errResponse req.id e],
          { st with cursor := { st.cursor with opIdx := st.cursor.opIdx + 1 } }, true)
  else if req.method = "ssh.generate_key" then
    match decodeSshGenerateKeyParams req.params with
    | none => ([], st, false)
    | some _p =>
      match w.opResult st.cursor.opIdx with
      | .ok j => ([okResponse req.id j],
          { st with cursor := { st.cursor with opIdx := st.cursor.opIdx + 1 } }, true)
      | .error e => ([errResponse req.id e],
          { st with cursor := { st.cursor with opIdx := st.cursor.opIdx + 1 } }, true)
  else if req.method = "ssh.authorized_key_line" then
    match decodeSshAuthorizedKeyLineParams req.params with
    | none => ([], st, false)
    | some _p =>
      match w.opResult st.cursor.opIdx with
      | .ok j => ([okResponse req.id j],
          { st with cursor := { st.cursor with opIdx := st.cursor.opIdx + 1 } }, true)
      | .error e => ([errResponse req.id e],
          { st with cursor := { st.cursor with opIdx := st.cursor.opIdx + 1 } }, true)
  else if req.method = "ssh.install_public_key" then
    match decodeSshInstallPublicKeyParams req.params with
    | none => ([], st, false)
    | some _p =>
      match w.opResult st.cursor.opIdx with
      | .ok _ => ([okResponse req.id (.jobj [])],
          { st with cursor := { st.cursor with opIdx := st.cursor.opIdx + 1 } }, true)
      | .error e => ([errResponse req.id e],
          { st with cursor := { st.cursor with opIdx := st.cursor.opIdx + 1 } }, true)
  else
    ([errResponse req.id "unknown method"], st, true)

/-- fn handle_connection, first parsed request on a connection that is not
yet authenticated: a non-hello method draws one unauthorized response and
the read loop breaks; a hello request is dispatched, and the loop breaks
when its handler fails. Returns the frames pushed and whether the
connection stays open (now authenticated). -/
def first_request (cfg : ServerConfig) (w : SshWorld) (st : ConnState)
    (req : RequestEnvelope) : List Frame × ConnState × Bool :=
  if req.method ≠ "hello" then
    ([errResponse req.id "unauthorized"], st, false)
  else
    handle_request cfg w st req

/-! ## Interleaving of a finishing stream task with a concurrent cancel

The end of the spawned stream task emits the natural stream_exit and only
afterwards removes its entry from the stream table; the two actions sit on
either side of an await point. The cancel arm runs under the table lock
and emits its synthetic stream_exit whenever the entry is still present.
The model below has one atomic step per such source region, and a
schedule picks which side moves. -/

/-- Joint state of a finishing stream task and a concurrently handled
ssh.cancel for the same stream id: the stream table, the frames pushed to
the outbound queue so far, the two program counters, and whether the task
has been aborted. -/
structure RaceState where
  table : List Nat
  frames : List Frame
  taskPc : Nat
  cancelPc : Nat
  taskAborted : Bool
deriving Repr

/-- One step of the finishing stream task: pc 0 pushes the natural
stream_exit onto the outbound queue; pc 1 removes the entry from the
stream table. An aborted task takes no further step (the abort lands on
the await point between the two). -/
def taskStep (sid : Nat) (code : Int) (s : RaceState) : RaceState :=
  if s.taskAborted then s
  else if s.taskPc = 0 then
    { s with frames := s.frames ++ [Frame.streamExit sid code none],
             taskPc := 1 }
  else if s.taskPc = 1 then
    { s with table := s.table.erase sid, taskPc := 2 }
  else s

/-- One step of the ssh.cancel handler: pc 0 runs the arm's body under the
table lock — when the id is still present the entry is removed, the task
aborted and the synthetic cancelled stream_exit pushed; pc 1 pushes the
cancelled-true response. -/
def cancelStep (sid reqId : Nat) (s : RaceState) : RaceState :=
  if s.cancelPc = 0 then
    if s.table.contains sid then
      { s with table := s.table.erase sid,
               taskAborted := true,
               frames := s.frames ++ [Frame.streamExit sid (-1) (some "cancelled")],
               cancelPc := 1 }
    else { s with cancelPc := 1 }
  else if s.cancelPc = 1 then
    { s with frames := s.frames ++
        [okResponse reqId (.jobj [("cancelled", .jbool true)])],
             cancelPc := 2 }
  else s

/-- Run a schedule: true moves the stream task, false moves the cancel
handler. -/
def runRace (sid reqId : Nat) (code : Int) :
    List Bool → RaceState → RaceState
  | [], s => s
  | c :: rest, s =>
    runRace sid reqId code rest
      (if c then taskStep sid code s else cancelStep sid reqId s)

/-- Number of stream_exit frames for a given stream id. -/
def countStreamExits (sid : Nat) (frames : List Frame) : Nat :=
  frames.countP (fun f =>
    match f with
    | .streamExit s _ _ => s == sid
    | _ => false)

/-! ## Interleaving of the ssh.start handler with its spawned task

The handler spawns the stream task first and pushes the stream_id
response onto the outbound queue only afterwards; the task begins with a
single yield_now — a plain reschedule with no synchronization — and then
relays remote output. On the multi-threaded runtime the spawned task runs
concurrently with the rest of the handler, so a schedule picks which side
moves. -/

/-- Joint state of the ssh.start handler (after its session grab
succeeded) and its spawned stream task: the outbound queue in push order,
the two program counters, and whether the task has been spawned. -/
structure StartState where
  queue : List Frame
  handlerPc : Nat
  taskPc : Nat
  spawned : Bool
deriving Repr

/-- One step of the ssh.start handler: pc 0 spawns the stream task, pc 1
registers the task handle in the stream table, pc 2 pushes the stream_id
response onto the outbound queue — after the task is already running. -/
def startHandlerStep (sid reqId : Nat) (s : StartState) : StartState :=
  if s.handlerPc = 0 then { s with spawned := true, handlerPc := 1 }
  else if s.handlerPc = 1 then { s with handlerPc := 2 }
  else if s.handlerPc = 2 then
    { s with queue := s.queue ++
        [okResponse reqId (.jobj [("stream_id", .jnum (sid : Int))])],
             handlerPc := 3 }
  else s

/-- One step of the spawned stream task, runnable as soon as it is
spawned: pc 0 is the initial yield_now, pc 1 pushes the first stream_line
once the remote produced output. -/
def startTaskStep (sid : Nat) (line : String) (s : StartState) : StartState :=
  if !s.spawned then s
  else if s.taskPc = 0 then { s with taskPc := 1 }
  else if s.taskPc = 1 then
    { s with queue := s.queue ++ [Frame.streamLine sid false line],
             taskPc := 2 }
  else s

/-- Run a schedule: true moves the handler, false moves the spawned task. -/
def runStart (sid reqId : Nat) (line : String) :
    List Bool → StartState → StartState
  | [], s => s
  | c :: rest, s =>
    runStart sid reqId line rest
      (if c then startHandlerStep sid reqId s else startTaskStep sid line s)

/-- Whether a frame is a response envelope. -/
def isResponse : Frame → Bool
  | .response _ _ _ _ => true
  | _ => false

/-- Whether a frame is a stream event (no id: stream_line or stream_exit)
for the given stream id. -/
def isStreamEventFor (sid : Nat) : Frame → Bool
  | .streamLine s _ _ => s == sid
  | .streamExit s _ _ => s == sid
  | _ => false

/-! ## Concrete fixtures used by the closed theorems -/

/-- A server configuration with token tok and protocol 1. -/
def cfg0 : ServerConfig := ⟨"tok", 1⟩

/-- A benign environment: every connect yields client 1, every command
completes cleanly, every non-core operation succeeds. -/
def w0 : SshWorld :=
  ⟨fun _ => .ok 1, fun _ => .completed "" "" 0, fun _ => .ok .null⟩

/-- A fresh connection state: empty pool, counter at 1, no streams. -/
def st0 : ConnState := ⟨⟨[]⟩, 1, [], ⟨0, 0, 0⟩⟩

/-- ssh.start params whose target host is empty, so the session grab fails
with host is empty. -/
def startEmptyHostParams : Json :=
  .jobj [("target", .jobj
      [("host", .jstr ""), ("port", .jnum 22), ("username", .jstr "u"),
        ("auth", .jobj [("kind", .jstr "password"),
          ("password", .jstr "p")])]),
    ("command", .jstr "x"), ("connect_timeout_ms", .jnum 1000)]

/-- Race model start state: stream 1 is in the table, both sides are at
their first step. -/
def raceInit : RaceState := ⟨[1], [], 0, 0, false⟩

/-- Start-ordering model start state: empty queue, handler about to
spawn, task not yet spawned. -/
def startInit : StartState := ⟨[], 0, 0, false⟩

/-- hello params with the right token but protocol 2. -/
def helloMismatchParams : Json :=
  .jobj [("token", .jstr "tok"), ("protocol", .jnum 2)]

/-- hello params with a wrong token and the right protocol. -/
def helloBadTokenParams : Json :=
  .jobj [("token", .jstr "bad"), ("protocol", .jnum 1)]

/-- hello params matching cfg0. -/
def helloGoodParams : Json :=
  .jobj [("token", .jstr "tok"), ("protocol", .jnum 1)]

/-- A password-authenticated target. -/
def execTarget : SshTarget := ⟨"h", 22, "u", .password "p"⟩

/-- ssh.exec params against execTarget. -/
def execParams7 : SshExecParams := ⟨execTarget, "ls", 1000, 1000⟩

/-- The PoolKey execTarget caches under. -/
def key7 : PoolKey := ⟨"h", 22, "u", .password, hash_secret "p"⟩

/-- Environment whose first command attempt fails with a transient SSH
protocol error and whose retry fails with a permanent error. -/
def w7a : SshWorld :=
  ⟨fun _ => .ok 1,
    fun n => if n = 0 then .failed (.sshError "boom")
      else .failed (.otherError "bad auth"),
    fun _ => .ok .null⟩

/-- Environment whose command attempts fail with a permanent error. -/
def w7b : SshWorld :=
  ⟨fun _ => .ok 1, fun _ => .failed (.otherError "bad auth"),
    fun _ => .ok .null⟩

/-- Environment whose command attempts time out. -/
def w7c : SshWorld :=
  ⟨fun _ => .ok 1, fun _ => .elapsed, fun _ => .ok .null⟩

/-- A connection state with live streams 1 and 2. -/
def stC8 : ConnState := ⟨⟨[]⟩, 3, [1, 2], ⟨0, 0, 0⟩⟩

/-- ssh.cancel params for stream 1. -/
def cancelParams1 : Json := .jobj [("stream_id", .jnum 1)]

/-- Environment whose connects yield client 7. -/
def w9 : SshWorld :=
  ⟨fun _ => .ok 7, fun _ => .completed "" "" 0, fun _ => .ok .null⟩

/-- A connection state with one cached session and live streams 1 and 2. -/
def st6 : ConnState := ⟨⟨[(key7, 1)]⟩, 3, [1, 2], ⟨0, 0, 0⟩⟩

/-- ssh.reset_all params with reason user_reset. -/
def resetParamsUser : Json := .jobj [("reason", .jstr "user_reset")]

/-- The PoolKey under which a key-authenticated target for host h, port
22, user u and the PEM text PEM caches. -/
def key9 : PoolKey := ⟨"h", 22, "u", .key, hash_secret "PEM"⟩


/-! ## Supporting lemmas for the line-framing refinement -/

theorem breakAtNl_after_length :
    ∀ {l before after : List Char},
      breakAtNl l = some (before, after) → after.length < l.length := by
  intro l
  induction l with
  | nil => intro b a h; simp [breakAtNl] at h
  | cons c rest ih =>
    intro b a h
    simp only [breakAtNl] at h
    split at h
    · cases h
      simp
    · cases hr : breakAtNl rest with
      | none => rw [hr] at h; simp at h
      | some p =>
        obtain ⟨p1, p2⟩ := p
        rw [hr] at h
        simp only [Option.map_some'] at h
        have h2 := Option.some.inj h
        have ha : p2 = a := congrArg Prod.snd h2
        subst ha
        exact Nat.lt_succ_of_lt (ih hr)

theorem getLastD_default_irrelevant {α : Type} (l : List α) (hl : l ≠ [])
    (d1 d2 : α) : l.getLastD d1 = l.getLastD d2 := by
  cases l with
  | nil => exact absurd rfl hl
  | cons a t => rfl

theorem splitSegments_ne_nil (l : List Char) : splitSegments l ≠ [] := by
  cases l with
  | nil => simp [splitSegments]
  | cons c rest =>
    simp only [splitSegments]
    split
    · simp
    · split <;> simp

theorem splitSegments_of_breakAtNl_none {l : List Char}
    (h : breakAtNl l = none) : splitSegments l = [l] := by
  induction l with
  | nil => simp [splitSegments]
  | cons c rest ih =>
    simp only [breakAtNl] at h
    split at h
    · cases h
    · cases hr : breakAtNl rest with
      | none =>
        rename_i hc
        simp only [splitSegments, if_neg hc, ih hr]
      | some p => rw [hr] at h; simp at h

theorem splitSegments_of_breakAtNl_some {l before after : List Char}
    (h : breakAtNl l = some (before, after)) :
    splitSegments l = before :: splitSegments after := by
  induction l generalizing before after with
  | nil => simp [breakAtNl] at h
  | cons c rest ih =>
    simp only [breakAtNl] at h
    split at h
    · rename_i hc
      cases h
      simp [splitSegments, hc]
    · rename_i hc
      cases hr : breakAtNl rest with
      | none => rw [hr] at h; simp at h
      | some p =>
        obtain ⟨p1, p2⟩ := p
        rw [hr] at h
        simp only [Option.map_some'] at h
        have h2 := Option.some.inj h
        have hb : c :: p1 = before := congrArg Prod.fst h2
        have ha : p2 = after := congrArg Prod.snd h2
        subst hb
        subst ha
        have hrest := ih hr
        simp only [splitSegments, if_neg hc, hrest]

theorem extractLines_of_none {buf : List Char} (h : breakAtNl buf = none) :
    extractLines buf = ([], buf) := by
  rw [extractLines]
  split
  · rfl
  · rename_i before after heq
    rw [h] at heq
    exact Option.noConfusion heq

theorem extractLines_of_some {buf before after : List Char}
    (h : breakAtNl buf = some (before, after)) :
    extractLines buf =
      (trimEndCr before :: (extractLines after).1, (extractLines after).2) := by
  rw [extractLines]
  split
  · rename_i heq
    rw [h] at heq
    exact Option.noConfusion heq
  · rename_i b2 a2 heq
    rw [h] at heq
    have h2 := Option.some.inj heq
    have hb : before = b2 := congrArg Prod.fst h2
    have ha : after = a2 := congrArg Prod.snd h2
    subst hb
    subst ha
    rfl

theorem dropLast_cons_of_ne_nil {α : Type} (a : α) {l : List α}
    (h : l ≠ []) : (a :: l).dropLast = a :: l.dropLast := by
  cases l with
  | nil => exact absurd rfl h
  | cons b t => rfl

/-- The executable line extraction coincides with the segment-splitting
description: the emitted lines are the segments before each newline with
all trailing carriage returns removed, and the pending remainder is the
segment after the last newline. -/
theorem extractLines_eq_splitSegments (buf : List Char) :
    extractLines buf =
      (((splitSegments buf).dropLast).map trimEndCr,
        (splitSegments buf).getLastD []) := by
  have H : ∀ n (b : List Char), b.length ≤ n →
      extractLines b =
        (((splitSegments b).dropLast).map trimEndCr,
          (splitSegments b).getLastD []) := by
    intro n
    induction n with
    | zero =>
      intro b hb
      cases b with
      | nil =>
        rw [extractLines_of_none (rfl : breakAtNl [] = none)]
        simp [splitSegments]
      | cons c rest => simp at hb
    | succ n ih =>
      intro b hb
      cases hbk : breakAtNl b with
      | none =>
        rw [extractLines_of_none hbk, splitSegments_of_breakAtNl_none hbk]
        simp
      | some p =>
        obtain ⟨before, after⟩ := p
        have hlt : after.length < b.length := breakAtNl_after_length hbk
        have hih := ih after (Nat.le_of_lt_succ (Nat.lt_of_lt_of_le hlt hb))
        rw [extractLines_of_some hbk, splitSegments_of_breakAtNl_some hbk, hih]
        have hne : splitSegments after ≠ [] := splitSegments_ne_nil after
        simp only [Prod.mk.injEq]
        refine ⟨?_, ?_⟩
        · rw [dropLast_cons_of_ne_nil _ hne]
          simp
        · rw [List.getLastD_cons]
          exact getLastD_default_irrelevant _ hne _ _
  exact H buf.length buf (Nat.le_refl _)

/-! ## Claim theorems -/

/-- C1: the claim that every parsed request on an authenticated connection
draws exactly one response fails in the code on two paths, shown here at
concrete inputs: an ssh.exec request whose params value does not decode
makes the handler bail out with no response at all, and an ssh.start
request whose session grab fails (empty host) builds its error-response
future but drops it without awaiting it, so again no frame reaches the
outbound queue. -/
theorem c1_no_response_on_bad_params_or_start_failure :
    handle_request cfg0 w0 st0 ⟨5, "ssh.exec", Json.jnum 1⟩ =
      ([], st0, false) ∧
    handle_request cfg0 w0 st0 ⟨6, "ssh.start", startEmptyHostParams⟩ =
      ([], st0, false) := by
  exact ⟨rfl, rfl⟩

/-- C2: the claim that no interleaving of a stream's own exit emission
with a concurrent ssh.cancel yields two stream_exit events fails in the
code: the task pushes its natural exit before removing itself from the
table, so a cancel scheduled between the two still finds the id in the
table and pushes a second, synthetic exit. The schedule below exhibits the
two stream_exit frames for stream 1. -/
theorem c2_double_stream_exit_interleaving :
    countStreamExits 1
      (runRace 1 9 0 [true, false, false, true] raceInit).frames = 2 := by
  rfl

/-- C3: the claim that the ssh.start response precedes every stream event
for its stream id in every scheduling fails in the code: the task is
spawned before the response is pushed, and its initial yield_now is no
synchronization, so a schedule in which the spawned task relays remote
output before the handler resumes puts a stream_line on the outbound
queue ahead of the response. -/
theorem c3_stream_event_before_start_response :
    (runStart 1 7 "out" [true, false, false, true, true] startInit).queue =
      [Frame.streamLine 1 false "out",
        okResponse 7 (.jobj [("stream_id", .jnum 1)])] ∧
    ((runStart 1 7 "out" [true, false, false, true, true]
        startInit).queue.takeWhile (fun f => !isResponse f)).any
      (isStreamEventFor 1) = true := by
  exact ⟨rfl, rfl⟩

/-- C4 counterexample: extracting lines from the buffer a b c CR CR NL
emits the line with every trailing carriage return removed — not, as the
claim states, with only the last one removed. -/
theorem c4_counterexample_multiple_trailing_cr :
    (extractLines ['a', 'b', 'c', '\r', '\r', '\n']).1 = [['a', 'b', 'c']] ∧
    (extractLines ['a', 'b', 'c', '\r', '\r', '\n']).1 ≠
      [['a', 'b', 'c', '\r']] := by
  have h1 : breakAtNl ['a', 'b', 'c', '\r', '\r', '\n'] =
      some (['a', 'b', 'c', '\r', '\r'], []) := by decide
  have h2 : extractLines ['a', 'b', 'c', '\r', '\r', '\n'] =
      ([['a', 'b', 'c']], []) := by
    rw [extractLines_of_some h1, extractLines_of_none (rfl : breakAtNl [] = none)]
    decide
  rw [h2]
  exact ⟨rfl, by decide⟩

/-- C4 (amended): line extraction repeatedly removes the prefix of the
pending buffer up to the first newline and strips all trailing carriage
returns from that prefix before emitting it — the emitted lines are the
segments before each newline with every trailing carriage return removed,
and the remainder after the last newline stays pending. -/
theorem c4_lines_strip_all_trailing_cr (buf : List Char) :
    (extractLines buf).1 =
      ((splitSegments buf).dropLast).map trimEndCr ∧
    (extractLines buf).2 = (splitSegments buf).getLastD [] := by
  have h := extractLines_eq_splitSegments buf
  exact ⟨congrArg Prod.fst h, congrArg Prod.snd h⟩

/-- C5 counterexample: when the first request on an unauthenticated
connection is hello with params that do not decode, the connection closes
with no failing response at all — not the exactly one failing response the
claim states for every first parsed request. -/
theorem c5_counterexample_hello_undecodable_params :
    first_request cfg0 w0 st0 ⟨1, "hello", Json.jnum 5⟩ = ([], st0, false) := by
  rfl

/-- C5 (amended): the first parsed request on an unauthenticated
connection draws exactly one failing response followed by connection
close when its method is not hello, when its hello protocol mismatches,
or when its hello token mismatches; when its hello params do not decode
the connection closes without any response; a well-formed matching hello
draws one success response and the connection stays open. -/
theorem c5_first_request_cases (cfg : ServerConfig) (w : SshWorld)
    (st : ConnState) (req : RequestEnvelope) :
    (req.method ≠ "hello" →
      first_request cfg w st req =
        ([errResponse req.id "unauthorized"], st, false)) ∧
    (req.method = "hello" → decodeHelloParams req.params = none →
      first_request cfg w st req = ([], st, false)) ∧
    (∀ p, req.method = "hello" → decodeHelloParams req.params = some p →
      p.protocol ≠ cfg.protocol →
      first_request cfg w st req =
        ([errResponse req.id
            ("protocol mismatch (client=" ++ toString p.protocol ++
              ", server=" ++ toString cfg.protocol ++ ")")], st, false)) ∧
    (∀ p, req.method = "hello" → decodeHelloParams req.params = some p →
      p.protocol = cfg.protocol → p.token ≠ cfg.token →
      first_request cfg w st req =
        ([errResponse req.id "unauthorized"], st, false)) ∧
    (∀ p, req.method = "hello" → decodeHelloParams req.params = some p →
      p.protocol = cfg.protocol → p.token = cfg.token →
      first_request cfg w st req =
        ([okResponse req.id (.jobj [("protocol", .jnum (cfg.protocol : Int))])],
          st, true)) := by
  refine ⟨?_, ?_, ?_, ?_, ?_⟩
  · intro hm
    simp only [first_request, if_pos hm]
  · intro hm hdec
    simp only [first_request, handle_request, hm, hdec]
    simp
  · intro p hm hdec hp
    simp only [first_request, handle_request, hm, hdec]
    simp [hp]
  · intro p hm hdec hp ht
    simp only [first_request, handle_request, hm, hdec]
    simp [hp, ht]
  · intro p hm hdec hp ht
    simp only [first_request, handle_request, hm, hdec]
    simp [hp, ht]

/-- C5 witness: the five cases of the amended claim at concrete inputs
against cfg0. -/
theorem c5_first_request_cases_witness :
    first_request cfg0 w0 st0 ⟨1, "nope", Json.null⟩ =
      ([errResponse 1 "unauthorized"], st0, false) ∧
    first_request cfg0 w0 st0 ⟨2, "hello", Json.jnum 5⟩ = ([], st0, false) ∧
    first_request cfg0 w0 st0 ⟨3, "hello", helloMismatchParams⟩ =
      ([errResponse 3 "protocol mismatch (client=2, server=1)"], st0, false) ∧
    first_request cfg0 w0 st0 ⟨4, "hello", helloBadTokenParams⟩ =
      ([errResponse 4 "unauthorized"], st0, false) ∧
    first_request cfg0 w0 st0 ⟨5, "hello", helloGoodParams⟩ =
      ([okResponse 5 (.jobj [("protocol", .jnum 1)])], st0, true) := by
  refine ⟨?_, ?_, ?_, ?_, ?_⟩
  · exact (c5_first_request_cases cfg0 w0 st0 _).1 (by decide)
  · exact (c5_first_request_cases cfg0 w0 st0 _).2.1 rfl rfl
  · exact (c5_first_request_cases cfg0 w0 st0
      ⟨3, "hello", helloMismatchParams⟩).2.2.1 ⟨"tok", 2⟩ rfl rfl (by decide)
  · exact (c5_first_request_cases cfg0 w0 st0
      ⟨4, "hello", helloBadTokenParams⟩).2.2.2.1 ⟨"bad", 1⟩ rfl rfl rfl
      (by decide)
  · exact (c5_first_request_cases cfg0 w0 st0
      ⟨5, "hello", helloGoodParams⟩).2.2.2.2 ⟨"tok", 1⟩ rfl rfl rfl rfl

/-- C6: ssh.reset_all reports cancelled_streams equal to the number of
live streams in the connection's table before the call and
cleared_connections equal to the number of pooled sessions before the
call; every tabled stream draws a synthetic stream_exit carrying the
given reason (or reset), the table and the pool end empty, and the
success response follows the exits. -/
theorem c6_reset_all_counts (cfg : ServerConfig) (w : SshWorld)
    (st : ConnState) (id : Nat) (params : Json) :
    (handle_request cfg w st ⟨id, "ssh.reset_all", params⟩ =
      (st.table.map (fun sid => Frame.streamExit sid (-1)
          (some ((((decodeSshResetAllParams params).getD ⟨none⟩).reason).getD
            "reset"))) ++
        [okResponse id (.jobj
            [("cleared_connections", .jnum (st.pool.entries.length : Int)),
              ("cancelled_streams", .jnum (st.table.length : Int))])],
        { st with table := [], pool := ⟨[]⟩ }, true)) ∧
    (∀ sid, sid ∈ st.table →
      Frame.streamExit sid (-1)
          (some ((((decodeSshResetAllParams params).getD ⟨none⟩).reason).getD
            "reset")) ∈
        (handle_request cfg w st ⟨id, "ssh.reset_all", params⟩).1) := by
  have heq : handle_request cfg w st ⟨id, "ssh.reset_all", params⟩ =
      (st.table.map (fun sid => Frame.streamExit sid (-1)
          (some ((((decodeSshResetAllParams params).getD ⟨none⟩).reason).getD
            "reset"))) ++
        [okResponse id (.jobj
            [("cleared_connections", .jnum (st.pool.entries.length : Int)),
              ("cancelled_streams", .jnum (st.table.length : Int))])],
        { st with table := [], pool := ⟨[]⟩ }, true) := by
    simp [handle_request, clear_all]
  refine ⟨heq, ?_⟩
  intro sid hsid
  rw [heq]
  simp only [List.mem_append, List.mem_map]
  exact Or.inl ⟨sid, hsid, rfl⟩

/-- C6 witness: resetting a connection with streams 1 and 2 and one
cached session reports two cancelled streams and one cleared connection,
after emitting one user_reset exit per stream. -/
theorem c6_reset_all_counts_witness :
    handle_request cfg0 w0 st6 ⟨9, "ssh.reset_all", resetParamsUser⟩ =
      ([Frame.streamExit 1 (-1) (some "user_reset"),
        Frame.streamExit 2 (-1) (some "user_reset"),
        okResponse 9 (.jobj [("cleared_connections", .jnum 1),
          ("cancelled_streams", .jnum 2)])],
        ⟨⟨[]⟩, 3, [], ⟨0, 0, 0⟩⟩, true) ∧
    Frame.streamExit 1 (-1) (some "user_reset") ∈
      (handle_request cfg0 w0 st6 ⟨9, "ssh.reset_all", resetParamsUser⟩).1 := by
  have h := c6_reset_all_counts cfg0 w0 st6 9 resetParamsUser
  exact ⟨h.1, h.2 1 (by decide)⟩

/-- C8: ssh.cancel always responds cancelled true; the synthetic
stream_exit is pushed, before the response, exactly when the stream id is
in the connection's table, whose entry is removed; cancelling again after
that — covering unknown and already-cancelled ids — pushes no stream_exit
and leaves the table unchanged. -/
theorem c8_cancel_idempotent (cfg : ServerConfig) (w : SshWorld)
    (st : ConnState) (id sid : Nat) (params : Json)
    (hdec : decodeSshCancelParams params = some ⟨sid⟩)
    (hnodup : st.table.Nodup) :
    (handle_request cfg w st ⟨id, "ssh.cancel", params⟩ =
      ((if sid ∈ st.table
          then [Frame.streamExit sid (-1) (some "cancelled")] else []) ++
        [okResponse id (.jobj [("cancelled", .jbool true)])],
        { st with table := st.table.erase sid }, true)) ∧
    (handle_request cfg w { st with table := st.table.erase sid }
        ⟨id, "ssh.cancel", params⟩ =
      ([okResponse id (.jobj [("cancelled", .jbool true)])],
        { st with table := st.table.erase sid }, true)) := by
  have hmem : sid ∉ st.table.erase sid := by
    intro hin
    exact absurd (hnodup.mem_erase_iff.mp hin).1 (by simp)
  constructor
  · by_cases hm : sid ∈ st.table
    · simp [handle_request, hdec, hm]
    · simp [handle_request, hdec, hm, List.erase_of_not_mem hm]
  · simp [handle_request, hdec, hmem]

/-- C8 witness: cancelling live stream 1 pushes the synthetic exit then
the response and removes the entry; cancelling it again only responds. -/
theorem c8_cancel_idempotent_witness :
    handle_request cfg0 w0 stC8 ⟨4, "ssh.cancel", cancelParams1⟩ =
      ([Frame.streamExit 1 (-1) (some "cancelled"),
        okResponse 4 (.jobj [("cancelled", .jbool true)])],
        ⟨⟨[]⟩, 3, [2], ⟨0, 0, 0⟩⟩, true) ∧
    handle_request cfg0 w0 ⟨⟨[]⟩, 3, [2], ⟨0, 0, 0⟩⟩
        ⟨4, "ssh.cancel", cancelParams1⟩ =
      ([okResponse 4 (.jobj [("cancelled", .jbool true)])],
        ⟨⟨[]⟩, 3, [2], ⟨0, 0, 0⟩⟩, true) := by
  have h := c8_cancel_idempotent cfg0 w0 stC8 4 1 cancelParams1 rfl (by decide)
  exact ⟨h.1, h.2⟩

/-- C10: ssh.reset_all never fails on malformed params — any params value
that does not decode is handled as if the reason were absent, so the
sweep still runs with reason reset and a success response is pushed —
whereas undecodable params make the ssh.cancel and ssh.exec arms abort
with no response. -/
theorem c10_reset_all_tolerates_bad_params (cfg : ServerConfig)
    (w : SshWorld) (st : ConnState) (id : Nat) (params : Json)
    (hdec : decodeSshResetAllParams params = none) :
    (handle_request cfg w st ⟨id, "ssh.reset_all", params⟩ =
      (st.table.map (fun sid => Frame.streamExit sid (-1) (some "reset")) ++
        [okResponse id (.jobj
            [("cleared_connections", .jnum (st.pool.entries.length : Int)),
              ("cancelled_streams", .jnum (st.table.length : Int))])],
        { st with table := [], pool := ⟨[]⟩ }, true)) ∧
    (∀ params2, decodeSshCancelParams params2 = none →
      handle_request cfg w st ⟨id, "ssh.cancel", params2⟩ = ([], st, false)) ∧
    (∀ params3, decodeSshExecParams params3 = none →
      handle_request cfg w st ⟨id, "ssh.exec", params3⟩ = ([], st, false)) := by
  refine ⟨?_, ?_, ?_⟩
  · simp [handle_request, hdec, clear_all]
  · intro params2 hdec2
    simp [handle_request, hdec2]
  · intro params3 hdec3
    simp [handle_request, hdec3]

/-- C10 witness: a numeric params value does not decode for reset_all,
cancel or exec; reset_all still succeeds with reason reset while the
other two arms push nothing. -/
theorem c10_reset_all_tolerates_bad_params_witness :
    handle_request cfg0 w0 st0 ⟨7, "ssh.reset_all", Json.jnum 3⟩ =
      ([okResponse 7 (.jobj [("cleared_connections", .jnum 0),
          ("cancelled_streams", .jnum 0)])], st0, true) ∧
    handle_request cfg0 w0 st0 ⟨7, "ssh.cancel", Json.jnum 3⟩ =
      ([], st0, false) ∧
    handle_request cfg0 w0 st0 ⟨7, "ssh.exec", Json.jnum 3⟩ =
      ([], st0, false) := by
  have h := c10_reset_all_tolerates_bad_params cfg0 w0 st0 7 (Json.jnum 3) rfl
  exact ⟨h.1, h.2.1 (Json.jnum 3) rfl, h.2.2 (Json.jnum 3) rfl⟩

/-- C7: the one-shot exec retry policy. With a session in hand, a first
attempt failing with a transient-reconnect error evicts the PoolKey (the
reconnect runs against the evicted pool) and retries exactly once — the
oracle cursor advances past exactly two command attempts — surfacing a
retry failure verbatim; a first attempt failing with a non-transient
error, or timing out (the synthesized SSH command timeout), is returned
as the response with no retry — the cursor advances past exactly one
attempt and the pool is left as the session grab produced it. -/
theorem c7_exec_retry_policy (pool : PoolState) (w : SshWorld)
    (cur : WorldCursor) (params : SshExecParams) (key : PoolKey) (c : Client)
    (pool1 : PoolState) (cur1 : WorldCursor)
    (hget : ssh_get_client pool w cur params.target =
      (.ok (key, c), pool1, cur1)) :
    (∀ e, w.execResult cur1.execIdx = .failed e → should_reconnect e = true →
      ∀ kc2 pool3 cur3,
        ssh_get_client (poolRemove pool1 key) w
            { cur1 with execIdx := cur1.execIdx + 1 } params.target =
          (.ok kc2, pool3, cur3) →
        ((∀ e2, w.execResult cur3.execIdx = .failed e2 →
            ssh_exec pool w cur params =
              (.error e2.toMessage, pool3,
                { cur3 with execIdx := cur3.execIdx + 1 })) ∧
          (∀ out err status,
            w.execResult cur3.execIdx = .completed out err status →
            ssh_exec pool w cur params =
              (.ok ⟨out, err, exitCodeOfStatus status⟩, pool3,
                { cur3 with execIdx := cur3.execIdx + 1 })) ∧
          (w.execResult cur3.execIdx = .elapsed →
            ssh_exec pool w cur params =
              (.error "SSH command timeout", pool3,
                { cur3 with execIdx := cur3.execIdx + 1 })))) ∧
    (∀ e, w.execResult cur1.execIdx = .failed e → should_reconnect e = false →
      ssh_exec pool w cur params =
        (.error e.toMessage, pool1,
          { cur1 with execIdx := cur1.execIdx + 1 })) ∧
    (w.execResult cur1.execIdx = .elapsed →
      ssh_exec pool w cur params =
        (.error "SSH command timeout", pool1,
          { cur1 with execIdx := cur1.execIdx + 1 })) := by
  refine ⟨?_, ?_, ?_⟩
  · intro e h1 htrans kc2 pool3 cur3 hget2
    refine ⟨?_, ?_, ?_⟩
    · intro e2 h2
      simp only [ssh_exec, hget, h1, htrans, if_true, hget2, h2]
    · intro out err status h2
      simp only [ssh_exec, hget, h1, htrans, if_true, hget2, h2]
    · intro h2
      simp only [ssh_exec, hget, h1, htrans, if_true, hget2, h2]
  · intro e h1 htrans
    simp only [ssh_exec, hget, h1, htrans, Bool.false_eq_true, if_false]
  · intro h1
    simp only [ssh_exec, hget, h1]

/-- C7 witness: against a fresh pool, a transient first failure with a
permanently failing retry surfaces the retry error after two attempts; a
permanent first failure and a first-attempt timeout are surfaced after
one attempt with no retry. -/
theorem c7_exec_retry_policy_witness :
    ssh_exec ⟨[]⟩ w7a ⟨0, 0, 0⟩ execParams7 =
      (.error "bad auth", ⟨[(key7, 1)]⟩, ⟨2, 2, 0⟩) ∧
    ssh_exec ⟨[]⟩ w7b ⟨0, 0, 0⟩ execParams7 =
      (.error "bad auth", ⟨[(key7, 1)]⟩, ⟨1, 1, 0⟩) ∧
    ssh_exec ⟨[]⟩ w7c ⟨0, 0, 0⟩ execParams7 =
      (.error "SSH command timeout", ⟨[(key7, 1)]⟩, ⟨1, 1, 0⟩) := by
  refine ⟨?_, ?_, ?_⟩
  · exact (((c7_exec_retry_policy ⟨[]⟩ w7a ⟨0, 0, 0⟩ execParams7 key7 1
      ⟨[(key7, 1)]⟩ ⟨1, 0, 0⟩ rfl).1 (.sshError "boom") rfl rfl (key7, 1)
      ⟨[(key7, 1)]⟩ ⟨2, 1, 0⟩ rfl).1 (.otherError "bad auth") rfl)
  · exact ((c7_exec_retry_policy ⟨[]⟩ w7b ⟨0, 0, 0⟩ execParams7 key7 1
      ⟨[(key7, 1)]⟩ ⟨1, 0, 0⟩ rfl).2.1 (.otherError "bad auth") rfl rfl)
  · exact ((c7_exec_retry_policy ⟨[]⟩ w7c ⟨0, 0, 0⟩ execParams7 key7 1
      ⟨[(key7, 1)]⟩ ⟨1, 0, 0⟩ rfl).2.2 rfl)

/-- A replaced entry is found: looking up the inserted key after mapping
the replacement over a list that contains it yields the new client. -/
theorem find_after_replace (l : List (PoolKey × Client)) (k : PoolKey)
    (c : Client) (hany : l.any (fun e => e.1 == k) = true) :
    ((l.map (fun e => if e.1 == k then (k, c) else e)).find?
        (fun e => e.1 == k)).map (fun e => e.2) = some c := by
  induction l with
  | nil => simp at hany
  | cons e es ih =>
    simp only [List.map_cons]
    by_cases he : (e.1 == k) = true
    · rw [if_pos he]
      simp
    · rw [if_neg he]
      have hany2 : es.any (fun e => e.1 == k) = true := by
        simpa [he] using hany
      simpa [he] using ih hany2

/-- An appended entry is found when no earlier entry matches. -/
theorem find_after_append (l : List (PoolKey × Client)) (k : PoolKey)
    (c : Client) (hany : l.any (fun e => e.1 == k) = false) :
    (((l ++ [(k, c)]).find? (fun e => e.1 == k)).map (fun e => e.2)) =
      some c := by
  induction l with
  | nil => simp
  | cons e es ih =>
    have he : (e.1 == k) = false := by
      by_contra hne
      have het : (e.1 == k) = true := by
        cases hb : (e.1 == k) with
        | true => rfl
        | false => exact absurd hb hne
      simp [List.any_cons, het] at hany
    have hany2 : es.any (fun e => e.1 == k) = false := by
      simpa [he] using hany
    simp only [List.cons_append]
    simpa [he] using ih hany2

/-- Looking up a key right after inserting it yields the inserted
client. -/
theorem poolGet_poolInsert (p : PoolState) (k : PoolKey) (c : Client) :
    poolGet (poolInsert p k c) k = some c := by
  unfold poolGet poolInsert
  by_cases hany : p.entries.any (fun e => e.1 == k) = true
  · rw [if_pos hany]
    exact find_after_replace p.entries k c hany
  · rw [if_neg hany]
    have hfalse : p.entries.any (fun e => e.1 == k) = false := by
      cases hb : p.entries.any (fun e => e.1 == k) with
      | true => exact absurd hb hany
      | false => rfl
    exact find_after_append p.entries k c hfalse

/-- C9: for key-authenticated targets the PoolKey ignores the passphrase:
a call that connected and cached under passphrase p1 gives, when repeated
with any other passphrase p2 from the same starting state, the very same
key and result; repeated from the resulting state it is answered from the
cache — same key, same client, no connect attempt, so the passphrase of
the second request is never used. The key is exactly host, port,
username, the KEY kind and the digest of the PEM. -/
theorem c9_pool_key_ignores_passphrase (pool : PoolState) (w : SshWorld)
    (cur : WorldCursor) (host : String) (port : Nat) (username pem : String)
    (p1 p2 : Option String) (key : PoolKey) (c : Client) (pool1 : PoolState)
    (cur1 : WorldCursor)
    (h1 : get_or_connect_key pool w cur host port username pem p1 =
      (.ok (key, c), pool1, cur1, true)) :
    (get_or_connect_key pool w cur host port username pem p2 =
      (.ok (key, c), pool1, cur1, true)) ∧
    (get_or_connect_key pool1 w cur1 host port username pem p2 =
      (.ok (key, c), pool1, cur1, false)) ∧
    key = ⟨host, port, username, .key, hash_secret pem⟩ := by
  simp only [get_or_connect_key] at h1 ⊢
  cases hpg : poolGet pool ⟨host, port, username, .key, hash_secret pem⟩ with
  | some c0 =>
    rw [hpg] at h1
    simp at h1
  | none =>
    rw [hpg] at h1
    cases hcr : w.connectResult cur.connectIdx with
    | error e =>
      rw [hcr] at h1
      simp at h1
    | ok c2 =>
      rw [hcr] at h1
      simp only [Prod.mk.injEq, Except.ok.injEq] at h1
      obtain ⟨⟨hkey, hc⟩, hpool, hcur, -⟩ := h1
      subst hc
      subst hpool
      subst hcur
      refine ⟨?_, ?_, hkey.symm⟩
      · simp [hkey]
      · rw [← hkey, poolGet_poolInsert]

/-- C9 witness: connecting under passphrase a caches client 7; the same
request under passphrase b from the same start gives the same key and
result, and from the cached state it is answered from the cache with no
connect. -/
theorem c9_pool_key_ignores_passphrase_witness :
    get_or_connect_key ⟨[]⟩ w9 ⟨0, 0, 0⟩ "h" 22 "u" "PEM" (some "b") =
      (.ok (key9, 7), ⟨[(key9, 7)]⟩, ⟨1, 0, 0⟩, true) ∧
    get_or_connect_key ⟨[(key9, 7)]⟩ w9 ⟨1, 0, 0⟩ "h" 22 "u" "PEM"
        (some "b") =
      (.ok (key9, 7), ⟨[(key9, 7)]⟩, ⟨1, 0, 0⟩, false) := by
  have h := c9_pool_key_ignores_passphrase ⟨[]⟩ w9 ⟨0, 0, 0⟩ "h" 22 "u" "PEM"
    (some "a") (some "b") key9 7 ⟨[(key9, 7)]⟩ ⟨1, 0, 0⟩ rfl
  exact ⟨h.1, h.2.1⟩

end FieldExecd
